import Mathlib

/-!
Verification development for the pact-demos agent framework.

The Python sources under `src/agents/` are shallowly embedded below.
Pure methods become Lean functions; methods that mutate the agent are
embedded as explicit state passing (they return the updated `Agent`).
Python floats are modelled as exact rationals (`ℚ`), Python sets as
`Finset String`, Python dicts as association lists in insertion order,
and methods that raise become `Except`-valued functions.

Types the sources import from the external `pact_ax` / `pact_hx`
packages (which are not part of this repository's sources) are modelled
from the specification and are marked `Modelled from the spec:` in their
doc comments.
-/

namespace PactDemos

/-- Lowercasing of a string, character by character (model of Python
`str.lower()` on the ASCII strings used by this repository). -/
def lower (s : String) : String :=
  String.mk (s.toList.map Char.toLower)

/-- Substring test on character lists: `infixOf n h` is true iff `n`
occurs contiguously inside `h` (model of Python `n in h` on strings). -/
def infixOf : List Char → List Char → Bool
  | n, [] => n.isEmpty
  | n, h :: t => n.isPrefixOf (h :: t) || infixOf n t

/-- Model of the Python string-containment test `a in b`. -/
def pyIn (a b : String) : Bool :=
  infixOf a.toList b.toList

/-- Modelled from the spec: `pact_ax` `ConfidenceLevel` (§3) — an ordered
enumeration `UNKNOWN < LOW < MODERATE < CONFIDENT < CERTAIN`. -/
inductive ConfidenceLevel where
  | UNKNOWN
  | LOW
  | MODERATE
  | CONFIDENT
  | CERTAIN
deriving DecidableEq

/-- Modelled from the spec: the canonical numeric score of each
`ConfidenceLevel`, in `[0,1]` (§3; Python `ConfidenceLevel.value`).
The exact numbers are not in this repository's sources; the values below
respect the spec's ordering, put MODERATE in the `0.5–0.6` band of
scenario 2 (§8), and make CERTAIN the maximum score `1`. -/
def ConfidenceLevel.value : ConfidenceLevel → ℚ
  | .UNKNOWN => mkRat 0 1
  | .LOW => mkRat 3 10
  | .MODERATE => mkRat 55 100
  | .CONFIDENT => mkRat 3 4
  | .CERTAIN => mkRat 1 1

/-- `AgentCapability` from `src/agents/base_agent.py`: what an agent
knows it can or cannot do. -/
structure AgentCapability where
  domain : String
  topics : List String
  proficiency_level : ConfidenceLevel
  confidence_range : ℚ × ℚ
deriving DecidableEq

/-- `AgentCapability.can_handle` from `src/agents/base_agent.py`:
`any(topic.lower() in t.lower() for t in self.topics)`. -/
def AgentCapability.can_handle (cap : AgentCapability) (topic : String) : Bool :=
  cap.topics.any (fun t => pyIn (lower topic) (lower t))

/-- Modelled from the spec: `pact_ax` `KnowledgeBoundary` (§3) — the
mutable record of what an agent has learned it can and cannot do in one
domain. -/
structure KnowledgeBoundary where
  domain : String
  proficiency : ConfidenceLevel
  known_capabilities : Finset String
  known_limits : Finset String
deriving DecidableEq

/-- Modelled from the spec: `KnowledgeBoundary.update_boundary` (§3) —
inserts the learned limit or learned capability, when given, into the
respective set (set insertion, hence idempotent). The Python call sites
in `base_agent.py` pass exactly one of the two keyword arguments. -/
def KnowledgeBoundary.update_boundary (b : KnowledgeBoundary)
    (learned_limit : Option String) (learned_capability : Option String) :
    KnowledgeBoundary :=
  { b with
    known_limits :=
      match learned_limit with
      | some s => insert s b.known_limits
      | none => b.known_limits,
    known_capabilities :=
      match learned_capability with
      | some s => insert s b.known_capabilities
      | none => b.known_capabilities }

/-- Modelled from the spec: `pact_ax` `DelegationMap` (§3, §4.4) — a
mapping from domain to (delegate id, reason), kept as an association
list; `add_delegation` overwrites any existing entry (last write wins). -/
structure DelegationMap where
  entries : List (String × String × String)
deriving DecidableEq

/-- Modelled from the spec: `DelegationMap.add_delegation` (§4.4) —
registers or overwrites the entry for `domain`. -/
def DelegationMap.add_delegation (m : DelegationMap)
    (domain delegate_id reason : String) : DelegationMap :=
  ⟨(domain, delegate_id, reason) :: m.entries.filter (fun e => !(e.1 == domain))⟩

/-- Modelled from the spec: `DelegationMap.get_delegate` (§4.4) — pure
lookup of the delegate id for a domain, `none` if absent. -/
def DelegationMap.get_delegate (m : DelegationMap) (domain : String) :
    Option String :=
  (m.entries.find? (fun e => e.1 == domain)).map (fun e => e.2.1)

/-- Modelled from the spec: `pact_ax` `EpistemicState` (§3) — the
structured result of an agent's self-assessment for one query. -/
structure EpistemicState where
  value : Option String
  confidence : ConfidenceLevel
  uncertainty_reason : Option String
  boundary : Option KnowledgeBoundary
  delegation_map : Option DelegationMap
  source : Option String
deriving DecidableEq

/-- Modelled from the spec: `pact_ax` `UnknownResponse` — the
"outside declared expertise" outcome carrier (§4.3, §7). The
`can_learn` flag is passed by `base_agent.py` but does not influence
the resulting epistemic state. -/
structure UnknownResponse where
  reason : String
  suggested_delegate : Option String
  can_learn : Bool
deriving DecidableEq

/-- Modelled from the spec: `UnknownResponse.to_epistemic_state` — an
unknown-domain outcome is a normal `EpistemicState` with confidence
UNKNOWN, no value, and the reason surfaced as `uncertainty_reason`
(§4.3, §7: never an exception). -/
def UnknownResponse.to_epistemic_state (u : UnknownResponse) : EpistemicState :=
  { value := none
    confidence := ConfidenceLevel.UNKNOWN
    uncertainty_reason := some u.reason
    boundary := none
    delegation_map := none
    source := none }

/-- `Query` from `pact_ax.coordination.humility_aware`; shape given by
the spec (§3, §6): content, domain, and a required confidence in `[0,1]`. -/
structure Query where
  content : String
  domain : String
  required_confidence : ℚ
deriving DecidableEq

/-- One entry of `BaseAgent.interaction_history`
(`BaseAgent._log_interaction` in `src/agents/base_agent.py`; the
wall-clock timestamp is not modelled). -/
structure InteractionRecord where
  query : String
  domain : String
  confidence : ℚ
  deferred : Bool
  response_message : String
  should_escalate : Bool
deriving DecidableEq

/-- One entry of `BaseAgent.learning_log`
(`BaseAgent.learn_from_outcome` in `src/agents/base_agent.py`; the
wall-clock timestamp is not modelled). -/
structure LearningRecord where
  query : String
  predicted_confidence : ℚ
  actual_outcome : Bool
  feedback : Option String
deriving DecidableEq

/-- The state of a `BaseAgent` from `src/agents/base_agent.py`. The
expression orchestrator collaborator is modelled by the `express`
function below; the answer generator is a parameter of `Agent.handle`
(Python subclass overriding of `_generate_answer`). -/
structure Agent where
  id : String
  name : String
  domain : String
  capabilities : List AgentCapability
  boundaries : List KnowledgeBoundary
  delegation_map : DelegationMap
  interaction_history : List InteractionRecord
  learning_log : List LearningRecord
deriving DecidableEq

/-- `BaseAgent._build_boundaries` from `src/agents/base_agent.py`: one
`KnowledgeBoundary` per capability, in capability order, with
`known_capabilities = set(capability.topics)` and empty `known_limits`. -/
def buildBoundaries (capabilities : List AgentCapability) :
    List KnowledgeBoundary :=
  capabilities.map (fun capability =>
    { domain := capability.domain
      proficiency := capability.proficiency_level
      known_capabilities := capability.topics.toFinset
      known_limits := ∅ })

/-- `BaseAgent.__init__` from `src/agents/base_agent.py`: stores the
declared capabilities, derives the boundaries, and starts with an empty
delegation map and empty logs. It performs no validation. -/
def mkBaseAgent (agent_id name domain : String)
    (capabilities : List AgentCapability) : Agent :=
  { id := agent_id
    name := name
    domain := domain
    capabilities := capabilities
    boundaries := buildBoundaries capabilities
    delegation_map := ⟨[]⟩
    interaction_history := []
    learning_log := [] }

/-- Rendering of a rational for the interpolated Python message strings
(Python formats floats decimally; the exact rendering is irrelevant to
every claim, only the presence of the message). -/
def ratStr (x : ℚ) : String :=
  toString x.num ++ "/" ++ toString x.den

/-- The capability-matching test inside `BaseAgent.assess_capability`
(`src/agents/base_agent.py`): `cap.domain == query.domain or
cap.can_handle(query.content)`. -/
def capMatches (q : Query) (cap : AgentCapability) : Bool :=
  (cap.domain == q.domain) || cap.can_handle q.content

/-- `BaseAgent._suggest_delegate` from `src/agents/base_agent.py`. -/
def Agent.suggest_delegate (a : Agent) (q : Query) : Option String :=
  a.delegation_map.get_delegate q.domain

/-- `BaseAgent._assess_confidence` from `src/agents/base_agent.py`: the
base implementation returns the capability's proficiency level
unchanged (subclasses override it). -/
def baseAssessConfidence (_q : Query) (capability : AgentCapability) :
    ConfidenceLevel :=
  capability.proficiency_level

/-- `BaseAgent.assess_capability` from `src/agents/base_agent.py`,
embedded with explicit state passing (the second component is the
agent state after the call; the method performs no mutation, which is
exactly what the frame claim C7 asserts). `assessConf` is the
dynamically dispatched `_assess_confidence` of the concrete agent
class. -/
def Agent.assess_capability
    (assessConf : Query → AgentCapability → ConfidenceLevel)
    (a : Agent) (q : Query) : EpistemicState × Agent :=
  match a.capabilities.find? (capMatches q) with
  | none =>
      (({ reason := "Topic \x27" ++ q.domain ++ "\x27 is outside my expertise areas"
          suggested_delegate := a.suggest_delegate q
          can_learn := false } : UnknownResponse).to_epistemic_state, a)
  | some relevant_capability =>
      let confidence := assessConf q relevant_capability
      if confidence.value < q.required_confidence then
        ({ value := none
           confidence := confidence
           uncertainty_reason := some ("My confidence (" ++ ratStr confidence.value
             ++ ") is below required threshold (" ++ ratStr q.required_confidence ++ ")")
           boundary := a.boundaries.head?
           delegation_map := some a.delegation_map
           source := none }, a)
      else
        ({ value := some "can_handle"
           confidence := confidence
           uncertainty_reason := none
           boundary := a.boundaries.head?
           delegation_map := none
           source := none }, a)

/-- Modelled from the spec: `EpistemicState.should_defer` (from
`pact_ax`, called by `BaseAgent.handle`) — the pipeline transitions to
DEFERRING iff the confidence's numeric score is strictly below the
required confidence (§4.3). -/
def EpistemicState.should_defer (s : EpistemicState) (_domain : String)
    (required_confidence : ℚ) : Bool :=
  s.confidence.value < required_confidence

/-- Modelled from the spec: `EpistemicState.get_delegate` (from
`pact_ax`, called by `BaseAgent.handle`) — resolves a delegate id via
the delegation map carried by the state, keyed by the query domain
(§4.3). -/
def EpistemicState.get_delegate (s : EpistemicState) (domain : String) :
    Option String :=
  s.delegation_map.bind (fun m => m.get_delegate domain)

/-- The response produced for a handled query (spec §6). -/
structure Response where
  message : String
  confidence : ℚ
  should_escalate : Bool
  delegate_to : Option String
  safety_override : Option Bool
deriving DecidableEq

/-- Modelled from the spec: `ExpressionOrchestrator.express` (from
`pact_hx`, the Expression Renderer collaborator, §6) — always populates
`message` and `confidence`, surfaces `uncertainty_reason` when present,
sets `should_escalate` whenever the state signals deferral or an
unknown-domain outcome (absent value) and for the crisis-protocol
outcome (§8); the crisis-protocol outcome also carries the
`safety_override` marker. -/
def express (state : EpistemicState) (_raw_query : String)
    (delegate_to : Option String) : Response :=
  { message := state.value.getD (state.uncertainty_reason.getD "")
    confidence := state.confidence.value
    should_escalate := state.value.isNone || (state.source == some "crisis_protocol")
    delegate_to := delegate_to
    safety_override :=
      if state.source == some "crisis_protocol" then some true else none }

/-- `BaseAgent._log_interaction` from `src/agents/base_agent.py`:
appends one record to the interaction history. -/
def Agent.log_interaction (a : Agent) (q : Query) (state : EpistemicState)
    (response : Response) (deferred : Bool) : Agent :=
  { a with interaction_history := a.interaction_history ++
      [{ query := q.content
         domain := q.domain
         confidence := state.confidence.value
         deferred := deferred
         response_message := response.message
         should_escalate := response.should_escalate }] }

/-- The branch condition of `BaseAgent.handle`
(`src/agents/base_agent.py`, step 2): whether the pipeline takes the
deferring branch for this query. -/
def Agent.defers (assessConf : Query → AgentCapability → ConfidenceLevel)
    (a : Agent) (q : Query) : Bool :=
  ((Agent.assess_capability assessConf a q).1).should_defer q.domain
    q.required_confidence

/-- `BaseAgent.handle` from `src/agents/base_agent.py`: assess, then
defer immediately or attempt to answer, express, and log. `gen` is the
dynamically dispatched `_generate_answer` of the concrete agent class;
the base implementation raises, modelled as `Except.error`. -/
def Agent.handle (assessConf : Query → AgentCapability → ConfidenceLevel)
    (gen : Agent → Query → Except String EpistemicState)
    (a : Agent) (q : Query) : Except String (Response × Agent) :=
  let capability_assessment := (Agent.assess_capability assessConf a q).1
  if Agent.defers assessConf a q then
    let delegate_to := capability_assessment.get_delegate q.domain
    let response := express capability_assessment q.content delegate_to
    Except.ok (response, a.log_interaction q capability_assessment response true)
  else
    match gen a q with
    | Except.error e => Except.error e
    | Except.ok answer_state =>
        let response := express answer_state q.content none
        Except.ok (response, a.log_interaction q answer_state response false)

/-- `BaseAgent._generate_answer` from `src/agents/base_agent.py`: the
base implementation raises `NotImplementedError` at call time. -/
def baseGenerateAnswer (_a : Agent) (_q : Query) :
    Except String EpistemicState :=
  Except.error "Subclasses must implement _generate_answer"

/-- `BaseAgent.learn_from_outcome` from `src/agents/base_agent.py`:
logs the event unconditionally, then adds the query content to the
known limits (overconfident) or known capabilities (underconfident) of
every boundary whose domain equals the query domain. -/
def Agent.learn_from_outcome (a : Agent) (q : Query)
    (predicted_state : EpistemicState) (actual_outcome : Bool)
    (feedback : Option String) : Agent :=
  let a1 := { a with learning_log := a.learning_log ++
      [{ query := q.content
         predicted_confidence := predicted_state.confidence.value
         actual_outcome := actual_outcome
         feedback := feedback }] }
  let a2 :=
    if !actual_outcome && decide (predicted_state.confidence.value > mkRat 6 10) then
      { a1 with boundaries := a1.boundaries.map (fun b =>
          if b.domain == q.domain then b.update_boundary (some q.content) none else b) }
    else a1
  if actual_outcome && decide (predicted_state.confidence.value < mkRat 1 2) then
    { a2 with boundaries := a2.boundaries.map (fun b =>
        if b.domain == q.domain then b.update_boundary none (some q.content) else b) }
  else a2

/-- Modelled from the spec: `HumilityAwareCoordinator.route_query`
(from `pact_ax`, §4.5) — assesses every agent of the pool read-only,
discards deferrals and unknown-domain outcomes, and keeps the candidate
with the highest confidence score, first registered winning ties. The
second component is the pool after the pre-assessment pass (unchanged:
the pre-assessment is side-effect-free). -/
def route_query (assessConf : Query → AgentCapability → ConfidenceLevel)
    (pool : List Agent) (q : Query) : Option Agent × List Agent :=
  let candidates := pool.filter (fun a =>
    let st := (Agent.assess_capability assessConf a q).1
    st.value.isSome && !(st.should_defer q.domain q.required_confidence))
  let best := candidates.foldl (fun acc a =>
    match acc with
    | none => some a
    | some b =>
        if ((Agent.assess_capability assessConf a q).1).confidence.value >
            ((Agent.assess_capability assessConf b q).1).confidence.value
        then some a else some b) none
  (best, pool)

/-- The declared capabilities of `CustomerCareAgent`
(`src/agents/customer_care_agent.py`). -/
def ccCapabilities : List AgentCapability :=
  [ { domain := "general_inquiries"
      topics := ["hours", "location", "contact", "general questions"]
      proficiency_level := ConfidenceLevel.CONFIDENT
      confidence_range := (mkRat 4 5, mkRat 19 20) },
    { domain := "account_basics"
      topics := ["login", "password reset", "account info", "profile"]
      proficiency_level := ConfidenceLevel.CONFIDENT
      confidence_range := (mkRat 7 10, mkRat 9 10) },
    { domain := "billing_basic"
      topics := ["check balance", "payment methods", "billing cycle"]
      proficiency_level := ConfidenceLevel.MODERATE
      confidence_range := (mkRat 1 2, mkRat 7 10) } ]

/-- The simulated knowledge base of `CustomerCareAgent`, as an
association list in Python dict insertion order
(`src/agents/customer_care_agent.py`). -/
def ccKnowledgeBase : List (String × String) :=
  [ ("hours", "We\x27re open Monday-Friday 9am-6pm EST"),
    ("location", "We\x27re headquartered in San Francisco, CA"),
    ("contact", "You can reach us at support@example.com or 1-800-EXAMPLE"),
    ("login", "To reset your password, click \x27Forgot Password\x27 on the login page"),
    ("password reset", "Password resets are sent to your registered email within 5 minutes"),
    ("account info", "You can update your account info in Settings > Profile"),
    ("balance", "Your current balance is shown in the Billing section of your account") ]

/-- `CustomerCareAgent.__init__` from `src/agents/customer_care_agent.py`:
the base constructor followed by three delegation registrations. -/
def ccAgent : Agent :=
  let base := mkBaseAgent "care_agent_001" "Care Agent" "customer_care" ccCapabilities
  let m1 := base.delegation_map.add_delegation "billing_complex" "billing_specialist" "Complex billing issues require specialist"
  let m2 := m1.add_delegation "technical" "technical_support" "Technical issues need engineering expertise"
  let m3 := m2.add_delegation "refunds" "billing_specialist" "Refund processing requires specialist access"
  { base with delegation_map := m3 }

/-- The complexity-indicator list of
`CustomerCareAgent._assess_confidence` (`src/agents/customer_care_agent.py`). -/
def ccComplexityIndicators : List String :=
  ["complex", "detailed", "specific", "technical", "refund", "cancel"]

/-- `CustomerCareAgent._assess_confidence` from
`src/agents/customer_care_agent.py`: CERTAIN on a knowledge-base key
match, else LOW or MODERATE when the capability can handle the content
(depending on complexity indicators), else UNKNOWN. -/
def ccAssessConfidence (q : Query) (capability : AgentCapability) :
    ConfidenceLevel :=
  let query_lower := lower q.content
  if ccKnowledgeBase.any (fun kv => pyIn kv.1 query_lower) then
    ConfidenceLevel.CERTAIN
  else if capability.can_handle q.content then
    if ccComplexityIndicators.any (fun indicator => pyIn indicator query_lower) then
      ConfidenceLevel.LOW
    else
      ConfidenceLevel.MODERATE
  else
    ConfidenceLevel.UNKNOWN

/-- `CustomerCareAgent._generate_answer` from
`src/agents/customer_care_agent.py`. -/
def ccGenerateAnswer (a : Agent) (q : Query) : EpistemicState :=
  let query_lower := lower q.content
  match ccKnowledgeBase.find? (fun kv => pyIn kv.1 query_lower) with
  | some kv =>
      { value := some kv.2
        confidence := ConfidenceLevel.CERTAIN
        uncertainty_reason := none
        boundary := a.boundaries.head?
        delegation_map := none
        source := some "knowledge_base" }
  | none =>
    match a.capabilities.find? (fun capability => capability.can_handle q.content) with
    | some capability =>
        if pyIn "billing" query_lower && pyIn "refund" query_lower then
          { value := some ("I can see you\x27re asking about refunds, but I need to "
              ++ "connect you with our billing specialist who can process that for you.")
            confidence := ConfidenceLevel.LOW
            uncertainty_reason := some "Refund processing requires specialist access"
            boundary := none
            delegation_map := some a.delegation_map
            source := none }
        else if pyIn "technical" query_lower || pyIn "error" query_lower then
          { value := some "This appears to be a technical issue"
            confidence := ConfidenceLevel.LOW
            uncertainty_reason := some "Technical troubleshooting needs engineering team"
            boundary := none
            delegation_map := some a.delegation_map
            source := none }
        else
          { value := some ("I can help with " ++ capability.domain
              ++ " questions. Could you be more specific about what you need?")
            confidence := ConfidenceLevel.MODERATE
            uncertainty_reason := some "Need more details to provide specific answer"
            boundary := none
            delegation_map := none
            source := none }
    | none =>
        ({ reason := "This topic is outside my area of expertise"
           suggested_delegate := some "specialist_team"
           can_learn := false } : UnknownResponse).to_epistemic_state

/-- The declared capabilities of `MentalHealthSupportAgent`
(`src/agents/mental_health_agent.py`). -/
def mhCapabilities : List AgentCapability :=
  [ { domain := "general_wellness"
      topics := ["stress", "sleep", "exercise", "routine", "self-care"]
      proficiency_level := ConfidenceLevel.MODERATE
      confidence_range := (mkRat 1 2, mkRat 7 10) },
    { domain := "coping_techniques"
      topics := ["breathing", "grounding", "journaling", "mindfulness"]
      proficiency_level := ConfidenceLevel.CONFIDENT
      confidence_range := (mkRat 7 10, mkRat 17 20) },
    { domain := "session_continuity"
      topics := ["previous session", "progress", "goals"]
      proficiency_level := ConfidenceLevel.MODERATE
      confidence_range := (mkRat 3 5, mkRat 4 5) } ]

/-- `MentalHealthSupportAgent.__init__` from
`src/agents/mental_health_agent.py`: the base constructor followed by
four strict delegation registrations. -/
def mhAgent : Agent :=
  let base := mkBaseAgent "mh_support_001" "Mental Health Support" "mental_health"
    mhCapabilities
  let m1 := base.delegation_map.add_delegation "diagnosis" "licensed_therapist" "Diagnosis requires licensed clinical expertise"
  let m2 := m1.add_delegation "medication" "psychiatrist" "Medication questions need psychiatric expertise"
  let m3 := m2.add_delegation "crisis" "crisis_hotline" "Crisis situations need immediate professional support"
  let m4 := m3.add_delegation "severe_symptoms" "licensed_therapist" "Severe symptoms require clinical assessment"
  { base with delegation_map := m4 }

/-- The simulated session history of `MentalHealthSupportAgent`
(`src/agents/mental_health_agent.py`). -/
def mhSessionHistory : List (String × String) :=
  [ ("stress_techniques", "We\x27ve practiced box breathing and progressive muscle relaxation"),
    ("goals", "Working on establishing consistent sleep routine"),
    ("progress", "You mentioned feeling more grounded after our breathing exercises") ]

/-- Lookup in the session history with a fallback (Python `dict.get`). -/
def mhHistoryGet (key fallback : String) : String :=
  ((mhSessionHistory.find? (fun kv => kv.1 == key)).map (fun kv => kv.2)).getD fallback

/-- `MentalHealthSupportAgent._get_coping_technique_guidance` from
`src/agents/mental_health_agent.py`. -/
def mhGetCopingTechniqueGuidance (query : String) : String :=
  if pyIn "breathing" query then
    "Let\x27s try box breathing: Breathe in for 4 counts, hold for 4, out for 4, hold for 4. Repeat 4 times. This activates your parasympathetic nervous system."
  else if pyIn "grounding" query then
    "Try the 5-4-3-2-1 technique: Name 5 things you see, 4 you can touch, 3 you hear, 2 you smell, 1 you taste. This brings you to the present moment."
  else if pyIn "mindfulness" query then
    "A simple mindfulness practice: Focus on your breath for 2 minutes. When your mind wanders, gently bring attention back. No judgment, just noticing."
  else
    "There are several evidence-based techniques we can explore. What specifically would help you right now?"

/-- `MentalHealthSupportAgent._recall_session_context` from
`src/agents/mental_health_agent.py`. -/
def mhRecallSessionContext (query : String) : String :=
  if pyIn "stress" query then
    mhHistoryGet "stress_techniques" "We can explore stress management techniques together"
  else if pyIn "goal" query then
    mhHistoryGet "goals" "Let\x27s review your current goals"
  else if pyIn "progress" query then
    mhHistoryGet "progress" "Let\x27s reflect on your journey so far"
  else
    "From our previous conversations, we\x27ve been working on building coping strategies together"

/-- `MentalHealthSupportAgent._provide_general_wellness_support` from
`src/agents/mental_health_agent.py`. -/
def mhProvideGeneralWellnessSupport (query : String) : String :=
  if pyIn "sleep" query then
    "Sleep routine is important. Some general guidance: consistent bedtime, limit screens before bed, create calming environment. Your therapist can help tailor this to your specific situation."
  else if pyIn "stress" query then
    "Stress management often involves multiple approaches. We can work on breathing techniques and grounding exercises. Your therapist can help identify your specific stressors."
  else
    "Wellness involves physical, emotional, and mental aspects. What area feels most important to focus on right now?"

/-- `MentalHealthSupportAgent._generate_answer` from
`src/agents/mental_health_agent.py`. The Safety Override detector
`check_for_crisis`, the `check_requires_human` test, and the rendered
crisis-response text live in the external `pact_hx` package (spec §6
collaborator contracts), so they are parameters here; the source calls
the detector first, inside `_generate_answer`. -/
def mhGenerateAnswer (check_for_crisis : String → Bool × Option String)
    (check_requires_human : String → Bool) (crisis_response : String)
    (a : Agent) (q : Query) : EpistemicState :=
  let query_lower := lower q.content
  if (check_for_crisis q.content).1 then
    { value := some crisis_response
      confidence := ConfidenceLevel.CERTAIN
      uncertainty_reason := none
      boundary := none
      delegation_map := none
      source := some "crisis_protocol" }
  else if check_requires_human q.content then
    { value := some "This needs discussion with your therapist"
      confidence := ConfidenceLevel.UNKNOWN
      uncertainty_reason := some "Topic requires licensed clinical expertise"
      boundary := none
      delegation_map := some a.delegation_map
      source := none }
  else if ["breathing", "grounding", "mindfulness"].any
      (fun technique => pyIn technique query_lower) then
    { value := some (mhGetCopingTechniqueGuidance query_lower)
      confidence := ConfidenceLevel.CONFIDENT
      uncertainty_reason := none
      boundary := none
      delegation_map := none
      source := some "evidence_based_techniques" }
  else if ["previous", "last time", "we discussed", "progress"].any
      (fun term => pyIn term query_lower) then
    { value := some (mhRecallSessionContext query_lower)
      confidence := ConfidenceLevel.MODERATE
      uncertainty_reason := none
      boundary := none
      delegation_map := none
      source := some "session_history" }
  else if ["stress", "sleep", "routine"].any (fun term => pyIn term query_lower) then
    { value := some (mhProvideGeneralWellnessSupport query_lower)
      confidence := ConfidenceLevel.MODERATE
      uncertainty_reason := some "General guidance - your therapist can personalize this for you"
      boundary := none
      delegation_map := none
      source := none }
  else
    ({ reason := "This is outside my scope as a support tool"
       suggested_delegate := some "licensed_therapist"
       can_learn := false } : UnknownResponse).to_epistemic_state

/-- The declared capabilities of `VoiceAIAssistant`
(`src/agents/voice_ai_agent.py`). -/
def voiceCapabilities : List AgentCapability :=
  [ { domain := "general_knowledge"
      topics := ["facts", "definitions", "explanations", "history"]
      proficiency_level := ConfidenceLevel.CONFIDENT
      confidence_range := (mkRat 7 10, mkRat 9 10) },
    { domain := "current_events"
      topics := ["news", "today", "recent", "latest"]
      proficiency_level := ConfidenceLevel.LOW
      confidence_range := (mkRat 1 5, mkRat 1 2) },
    { domain := "personal_assistant"
      topics := ["reminder", "schedule", "weather", "time"]
      proficiency_level := ConfidenceLevel.CONFIDENT
      confidence_range := (mkRat 4 5, mkRat 19 20) } ]

/-- `VoiceAIAssistant.__init__` from `src/agents/voice_ai_agent.py`:
the base constructor followed by two delegation registrations. -/
def voiceAgent : Agent :=
  let base := mkBaseAgent "voice_001" "Voice Assistant" "voice_ai" voiceCapabilities
  let m1 := base.delegation_map.add_delegation "current_events" "web_search" "Need real-time information"
  let m2 := m1.add_delegation "specialized_knowledge" "expert_system" "Specialized domain needs expert"
  { base with delegation_map := m2 }

/-- The capital facts of `VoiceAIAssistant.knowledge`
(`src/agents/voice_ai_agent.py`). -/
def voiceCapitals : List (String × String) :=
  [("france", "Paris"), ("japan", "Tokyo"), ("usa", "Washington DC")]

/-- The definition facts of `VoiceAIAssistant.knowledge`
(`src/agents/voice_ai_agent.py`). -/
def voiceDefinitions : List (String × String) :=
  [ ("humility", "the quality of being humble; freedom from pride and arrogance"),
    ("epistemic", "relating to knowledge or to the degree of its validation") ]

/-- The tail of `VoiceAIAssistant._generate_answer` after the capital
and definition lookups fell through without an early return: the
weather check, then the unknown response
(`src/agents/voice_ai_agent.py`). -/
def voiceAnswerWeather (query_lower : String) : EpistemicState :=
  if pyIn "weather" query_lower then
    { value := some "I can check the weather"
      confidence := ConfidenceLevel.MODERATE
      uncertainty_reason := some "Would need to access weather API"
      boundary := none
      delegation_map := none
      source := some "capability_check" }
  else
    ({ reason := "I don\x27t have that information"
       suggested_delegate :=
         if pyIn "search" query_lower then none else some "search"
       can_learn := false } : UnknownResponse).to_epistemic_state

/-- The tail of `VoiceAIAssistant._generate_answer` from the definition
lookup on: a lookup hit returns early, and every other path falls
through to `voiceAnswerWeather` (`src/agents/voice_ai_agent.py`). -/
def voiceAnswerDefine (query_lower : String) : EpistemicState :=
  if pyIn "what is" query_lower || pyIn "define" query_lower then
    match voiceDefinitions.find? (fun kv => pyIn kv.1 query_lower) with
    | some kv =>
        { value := some (kv.1.capitalize ++ " means: " ++ kv.2)
          confidence := ConfidenceLevel.CONFIDENT
          uncertainty_reason := none
          boundary := none
          delegation_map := none
          source := some "knowledge_base" }
    | none => voiceAnswerWeather query_lower
  else voiceAnswerWeather query_lower

/-- `VoiceAIAssistant._generate_answer` from
`src/agents/voice_ai_agent.py` (the Python early returns become
fallthrough into the helper tails above). -/
def voiceGenerateAnswer (a : Agent) (q : Query) : EpistemicState :=
  let query_lower := lower q.content
  if ["today", "latest", "recent", "news", "now", "current"].any
      (fun indicator => pyIn indicator query_lower) then
    { value := some "I don\x27t have access to real-time information"
      confidence := ConfidenceLevel.UNKNOWN
      uncertainty_reason := some "No real-time data access"
      boundary := none
      delegation_map := some a.delegation_map
      source := none }
  else if pyIn "capital" query_lower then
    match voiceCapitals.find? (fun kv => pyIn kv.1 query_lower) with
    | some kv =>
        { value := some ("The capital of " ++ kv.1.capitalize ++ " is " ++ kv.2)
          confidence := ConfidenceLevel.CERTAIN
          uncertainty_reason := none
          boundary := none
          delegation_map := none
          source := some "knowledge_base" }
    | none => voiceAnswerDefine query_lower
  else voiceAnswerDefine query_lower

/-- The four-step base confidence policy as worded by the spec (§4.1),
for comparison with the implementations: CERTAIN on a known-fact key
contained in the content, else LOW on a handled topic with a complexity
indicator, else MODERATE on a handled topic, else UNKNOWN. -/
def specConfidencePolicy (known_fact_keys complexity_indicators : List String)
    (q : Query) (capability : AgentCapability) : ConfidenceLevel :=
  if known_fact_keys.any (fun key => pyIn key (lower q.content)) then
    ConfidenceLevel.CERTAIN
  else if capability.can_handle q.content &&
      complexity_indicators.any (fun indicator => pyIn indicator (lower q.content)) then
    ConfidenceLevel.LOW
  else if capability.can_handle q.content then
    ConfidenceLevel.MODERATE
  else
    ConfidenceLevel.UNKNOWN

/-- The `EpistemicState` invariant as worded by the spec (§3): an
absent value forces an uncertainty reason, and a firm answer (a present
value with no uncertainty reason) must carry a source tag. -/
def stateInvariant (s : EpistemicState) : Prop :=
  (s.value = none → s.uncertainty_reason.isSome = true) ∧
  (s.value.isSome = true ∧ s.uncertainty_reason = none → s.source.isSome = true)

/-- The crisis query of the `demo_mental_health` test list
(`src/agents/mental_health_agent.py`), annotated there with
"Should trigger crisis response". -/
def crisisQuery : Query :=
  { content := "I\x27m thinking about hurting myself"
    domain := "crisis"
    required_confidence := mkRat 9 10 }

/-- A billing query with a demanding threshold (spec §8 scenario 2). -/
def balanceQuery : Query :=
  { content := "check balance please"
    domain := "billing_basic"
    required_confidence := mkRat 9 10 }

/-- The billing capability of `CustomerCareAgent`
(`src/agents/customer_care_agent.py`), the one `balanceQuery` selects. -/
def billingCap : AgentCapability :=
  { domain := "billing_basic"
    topics := ["check balance", "payment methods", "billing cycle"]
    proficiency_level := ConfidenceLevel.MODERATE
    confidence_range := (mkRat 1 2, mkRat 7 10) }

/-- A query outside every declared capability of `CustomerCareAgent`
(the "mission" demo query of `src/agents/customer_care_agent.py`). -/
def missionQuery : Query :=
  { content := "What\x27s your company\x27s mission?"
    domain := "unknown"
    required_confidence := mkRat 3 5 }

/-- A minimal capability for exercising the base pipeline directly. -/
def demoCap : AgentCapability :=
  { domain := "demo"
    topics := ["demo topic"]
    proficiency_level := ConfidenceLevel.CERTAIN
    confidence_range := (mkRat 0 1, mkRat 1 1) }

/-- A bare `BaseAgent` that declares a capability but supplies no
answer-generation collaborator (no `_generate_answer` override). -/
def bareAgent : Agent :=
  mkBaseAgent "bare_001" "Bare" "demo" [demoCap]

/-- A query `bareAgent` is confident enough to answer (CERTAIN ≥ 0.5),
so its pipeline reaches the answering step. -/
def demoQuery : Query :=
  { content := "anything"
    domain := "demo"
    required_confidence := mkRat 1 2 }

/-- A query containing a complexity indicator ("technical") on a topic
the capability below can handle. -/
def technicalQuery : Query :=
  { content := "technical"
    domain := "tech_support"
    required_confidence := mkRat 1 2 }

/-- A capability that can handle `technicalQuery` while declaring
CONFIDENT proficiency. -/
def technicalCap : AgentCapability :=
  { domain := "tech_support"
    topics := ["technical support"]
    proficiency_level := ConfidenceLevel.CONFIDENT
    confidence_range := (mkRat 0 1, mkRat 1 1) }

/-- The hours query of the `demo_customer_care` test list with a
threshold the agent meets, so `assess_capability` produces the
`can_handle` marker state. -/
def hoursQuery : Query :=
  { content := "What are your hours?"
    domain := "general_inquiries"
    required_confidence := mkRat 1 2 }

/-- A predicted state with CONFIDENT confidence (score `0.75 > 0.6`),
for exercising the overconfidence branch of the learning loop. -/
def confidentState : EpistemicState :=
  { value := some "can_handle"
    confidence := ConfidenceLevel.CONFIDENT
    uncertainty_reason := none
    boundary := none
    delegation_map := none
    source := none }

/-- A billing-domain query for the learning loop. -/
def billLearnQuery : Query :=
  { content := "explain my bill in detail"
    domain := "billing_basic"
    required_confidence := mkRat 7 10 }

theorem infixOf_iff (n h : List Char) : infixOf n h = true ↔ n <:+: h := by
  induction h with
  | nil =>
    simp only [infixOf, List.isEmpty_iff, List.infix_nil]
  | cons c t ih =>
    simp [infixOf, List.infix_cons_iff, List.isPrefixOf_iff_prefix, ih]

theorem lower_toList (s : String) : (lower s).toList = s.toList.map Char.toLower :=
  rfl

theorem lower_length (s : String) : (lower s).length = s.length := by
  show (s.toList.map Char.toLower).length = s.toList.length
  exact List.length_map _ _

theorem any_map_fst (l : List (String × String)) (p : String → Bool) :
    (l.map Prod.fst).any p = l.any (fun kv => p kv.1) := by
  induction l with
  | nil => rfl
  | cons a t ih => simp [List.any_cons, ih]

theorem find?_some_split {α : Type} (p : α → Bool) :
    ∀ (l : List α) (x : α), l.find? p = some x →
      p x = true ∧ ∃ l1 l2, l = l1 ++ x :: l2 ∧ ∀ y ∈ l1, p y = false := by
  intro l
  induction l with
  | nil => intro x h; simp [List.find?] at h
  | cons a t ih =>
    intro x h
    by_cases hp : p a = true
    · rw [List.find?_cons_of_pos _ hp] at h
      cases h
      exact ⟨hp, [], t, rfl, by simp⟩
    · rw [List.find?_cons_of_neg _ hp] at h
      obtain ⟨hx, l1, l2, hl, hl1⟩ := ih x h
      refine ⟨hx, a :: l1, l2, by rw [hl]; rfl, ?_⟩
      intro y hy
      rcases List.mem_cons.mp hy with hya | hyl
      · subst hya; exact Bool.not_eq_true _ ▸ hp
      · exact hl1 y hyl

theorem assess_capability_state {assessConf : Query → AgentCapability → ConfidenceLevel}
    (a : Agent) (q : Query) : (Agent.assess_capability assessConf a q).2 = a := by
  unfold Agent.assess_capability
  cases a.capabilities.find? (capMatches q) with
  | none => rfl
  | some relevant_capability =>
    dsimp only
    split <;> rfl

/-- C7: `assess_capability` is side-effect-free — the agent state after
the call is the agent state before it, for every agent, query and
confidence policy; consequently the Coordinator's pre-assessment pass
over a pool (modelled `route_query`) leaves the whole pool unchanged,
and logging happens only in `handle`. -/
theorem c7_assess_capability_side_effect_free
    (assessConf : Query → AgentCapability → ConfidenceLevel) :
    (∀ (a : Agent) (q : Query), (Agent.assess_capability assessConf a q).2 = a)
    ∧ (∀ (pool : List Agent) (q : Query), (route_query assessConf pool q).2 = pool) :=
  ⟨fun a q => assess_capability_state a q, fun _ _ => rfl⟩

/-- C8: `can_handle` is a case-insensitive substring match of the
argument against the declared topics: it is true iff the lowercased
argument occurs inside the lowercasing of some topic, its result
depends only on the lowercasing of the argument (so it is invariant
under case changes), and it is false whenever the argument is strictly
longer than every declared topic. -/
theorem c8_can_handle_substring_match (cap : AgentCapability) (s : String) :
    (cap.can_handle s = true ↔
      ∃ t ∈ cap.topics, (lower s).toList <:+: (lower t).toList)
    ∧ (∀ s2, lower s2 = lower s → cap.can_handle s2 = cap.can_handle s)
    ∧ ((∀ t ∈ cap.topics, t.length < s.length) → cap.can_handle s = false) := by
  refine ⟨?_, ?_, ?_⟩
  · unfold AgentCapability.can_handle pyIn
    rw [List.any_eq_true]
    constructor
    · rintro ⟨t, ht, hin⟩
      exact ⟨t, ht, (infixOf_iff _ _).mp hin⟩
    · rintro ⟨t, ht, hin⟩
      exact ⟨t, ht, (infixOf_iff _ _).mpr hin⟩
  · intro s2 h
    unfold AgentCapability.can_handle pyIn
    rw [h]
  · intro h
    cases hc : cap.can_handle s with
    | false => rfl
    | true =>
      exfalso
      unfold AgentCapability.can_handle pyIn at hc
      rw [List.any_eq_true] at hc
      obtain ⟨t, ht, hin⟩ := hc
      have hlen := ((infixOf_iff _ _).mp hin).length_le
      have h1 : (lower s).toList.length = s.length := by
        show (s.toList.map Char.toLower).length = s.toList.length
        exact List.length_map _ _
      have h2 : (lower t).toList.length = t.length := by
        show (t.toList.map Char.toLower).length = t.toList.length
        exact List.length_map _ _
      rw [h1, h2] at hlen
      exact absurd hlen (by simpa using (h t ht))

/-- C8 witness: on the billing capability the predicate is invariant
under upper-casing the query and rejects a content string longer than
every declared topic. -/
theorem c8_witness :
    ({ domain := "billing_basic"
       topics := ["check balance", "payment methods", "billing cycle"]
       proficiency_level := ConfidenceLevel.MODERATE
       confidence_range := (mkRat 1 2, mkRat 7 10) } : AgentCapability).can_handle
        "CHECK BALANCE"
      = ({ domain := "billing_basic"
           topics := ["check balance", "payment methods", "billing cycle"]
           proficiency_level := ConfidenceLevel.MODERATE
           confidence_range := (mkRat 1 2, mkRat 7 10) } : AgentCapability).can_handle
          "check balance"
    ∧ ({ domain := "billing_basic"
         topics := ["check balance", "payment methods", "billing cycle"]
         proficiency_level := ConfidenceLevel.MODERATE
         confidence_range := (mkRat 1 2, mkRat 7 10) } : AgentCapability).can_handle
        "a content string that is longer than every declared topic"
      = false :=
  ⟨(c8_can_handle_substring_match _ "check balance").2.1 "CHECK BALANCE" (by decide),
   (c8_can_handle_substring_match _
      "a content string that is longer than every declared topic").2.2 (by decide)⟩

/-- C5: capability selection scans the declared capabilities in
declaration order and returns the first whose domain equals the query
domain or whose `can_handle` accepts the content; the earliest
declaration wins, and when no capability satisfies the predicate the
assessment takes the unknown-domain path. -/
theorem c5_first_match_capability_selection
    (assessConf : Query → AgentCapability → ConfidenceLevel)
    (a : Agent) (q : Query) :
    (∀ cap, a.capabilities.find? (capMatches q) = some cap →
        capMatches q cap = true
        ∧ ∃ l1 l2, a.capabilities = l1 ++ cap :: l2
            ∧ ∀ c ∈ l1, capMatches q c = false)
    ∧ (a.capabilities.find? (capMatches q) = none →
        (∀ c ∈ a.capabilities, capMatches q c = false)
        ∧ (Agent.assess_capability assessConf a q).1
            = ({ reason := "Topic \x27" ++ q.domain ++ "\x27 is outside my expertise areas"
                 suggested_delegate := a.suggest_delegate q
                 can_learn := false } : UnknownResponse).to_epistemic_state) := by
  constructor
  · intro cap h
    exact find?_some_split (capMatches q) a.capabilities cap h
  · intro h
    constructor
    · intro c hc
      have := List.find?_eq_none.mp h c hc
      exact Bool.not_eq_true _ ▸ this
    · unfold Agent.assess_capability
      rw [h]

/-- C5 witness: the mission query matches no capability of the
customer-care agent, so every declared capability rejects it and the
assessment is the unknown-domain state. -/
theorem c5_witness :
    (∀ c ∈ ccAgent.capabilities, capMatches missionQuery c = false)
    ∧ (Agent.assess_capability baseAssessConfidence ccAgent missionQuery).1
        = ({ reason := "Topic \x27unknown\x27 is outside my expertise areas"
             suggested_delegate := ccAgent.suggest_delegate missionQuery
             can_learn := false } : UnknownResponse).to_epistemic_state := by
  have h := (c5_first_match_capability_selection baseAssessConfidence ccAgent
    missionQuery).2 (by decide)
  exact ⟨h.1, h.2⟩

/-- C10: an agent built by the base constructor has exactly one
knowledge boundary per declared capability, in declaration order, with
the capability's topic set as known capabilities and empty known
limits; in particular the boundary list has the length of the
capability list, so it is non-empty whenever a capability was matched
(making the `boundaries[0]` accesses of `assess_capability` in
bounds). -/
theorem c10_boundaries_one_per_capability (agent_id name domain : String)
    (capabilities : List AgentCapability) (q : Query) :
    (mkBaseAgent agent_id name domain capabilities).boundaries.length
      = capabilities.length
    ∧ (∀ (i : Nat), (mkBaseAgent agent_id name domain capabilities).boundaries[i]?
        = (capabilities[i]?).map (fun (capability : AgentCapability) =>
            ({ domain := capability.domain
               proficiency := capability.proficiency_level
               known_capabilities := capability.topics.toFinset
               known_limits := ∅ } : KnowledgeBoundary)))
    ∧ (∀ cap, capabilities.find? (capMatches q) = some cap →
        (mkBaseAgent agent_id name domain capabilities).boundaries ≠ []) := by
  refine ⟨?_, ?_, ?_⟩
  · show (buildBoundaries capabilities).length = capabilities.length
    unfold buildBoundaries
    exact List.length_map _ _
  · intro i
    show (buildBoundaries capabilities)[i]? = _
    unfold buildBoundaries
    exact List.getElem?_map _ _ _
  · intro cap h hnil
    have hnil2 : buildBoundaries capabilities = [] := hnil
    unfold buildBoundaries at hnil2
    have hlen := congrArg List.length hnil2
    rw [List.length_map] at hlen
    rw [List.length_eq_zero.mp hlen] at h
    simp [List.find?] at h

/-- C10 witness: the customer-care agent's construction yields as many
boundaries as capabilities, and the billing query matches a capability,
so the boundary list is non-empty. -/
theorem c10_witness :
    (mkBaseAgent "care_agent_001" "Care Agent" "customer_care"
      ccCapabilities).boundaries ≠ [] :=
  (c10_boundaries_one_per_capability "care_agent_001" "Care Agent" "customer_care"
    ccCapabilities balanceQuery).2.2 billingCap (by decide)

/-- C2: when a matching capability is found, the pipeline takes the
deferring branch iff the numeric score of the assessed confidence is
strictly below `required_confidence`; on exact equality it answers;
and the deferral state carries an uncertainty reason and the agent's
delegation map. -/
theorem c2_defer_iff_score_below_required
    (assessConf : Query → AgentCapability → ConfidenceLevel)
    (a : Agent) (q : Query) (cap : AgentCapability)
    (hfind : a.capabilities.find? (capMatches q) = some cap) :
    (Agent.defers assessConf a q = true ↔
      (assessConf q cap).value < q.required_confidence)
    ∧ ((assessConf q cap).value = q.required_confidence →
        Agent.defers assessConf a q = false)
    ∧ ((assessConf q cap).value < q.required_confidence →
        ((Agent.assess_capability assessConf a q).1).uncertainty_reason.isSome = true
        ∧ ((Agent.assess_capability assessConf a q).1).delegation_map
            = some a.delegation_map) := by
  unfold Agent.defers Agent.assess_capability
  rw [hfind]
  by_cases h : (assessConf q cap).value < q.required_confidence
  · simp [h, EpistemicState.should_defer]
    intro he
    rw [he] at h
    exact absurd h (lt_irrefl _)
  · simp [h, EpistemicState.should_defer]

/-- C2 witness: for the billing query with threshold `0.9` the matched
capability assesses MODERATE (score `0.55 < 0.9`), so the pipeline
defers and the deferral state carries the delegation map. -/
theorem c2_witness :
    Agent.defers baseAssessConfidence ccAgent balanceQuery = true
    ∧ ((Agent.assess_capability baseAssessConfidence ccAgent balanceQuery).1).delegation_map
        = some ccAgent.delegation_map := by
  have h := c2_defer_iff_score_below_required baseAssessConfidence ccAgent
    balanceQuery billingCap (by decide)
  exact ⟨h.1.mpr (by decide), (h.2.2 (by decide)).2⟩

/-- C3 counterexample: a `BaseAgent` that declares a capability and
supplies no answer-generation collaborator is constructed without any
error (the constructor performs no validation), and the missing
collaborator surfaces during query handling: `handle` on a query the
agent is confident enough to answer fails with the
`NotImplementedError` message raised by the base `_generate_answer` —
refuting "the failure never first surfaces during query handling". -/
theorem c3_counterexample :
    bareAgent = mkBaseAgent "bare_001" "Bare" "demo" [demoCap]
    ∧ bareAgent.capabilities = [demoCap]
    ∧ Agent.handle baseAssessConfidence baseGenerateAnswer bareAgent demoQuery
        = Except.error "Subclasses must implement _generate_answer" := by
  refine ⟨rfl, rfl, ?_⟩
  unfold Agent.handle
  rw [show Agent.defers baseAssessConfidence bareAgent demoQuery = false from by decide]
  rfl

/-- C3 amended: the base constructor accepts any capability declaration
without validating that an answer generator exists; the missing
collaborator surfaces only at query time, when the pipeline reaches the
answering step and the base `_generate_answer` raises
`NotImplementedError`. -/
theorem c3_missing_generator_fails_at_query_time
    (agent_id name domain : String) (capabilities : List AgentCapability)
    (q : Query)
    (h : Agent.defers baseAssessConfidence
      (mkBaseAgent agent_id name domain capabilities) q = false) :
    (mkBaseAgent agent_id name domain capabilities).capabilities = capabilities
    ∧ Agent.handle baseAssessConfidence baseGenerateAnswer
        (mkBaseAgent agent_id name domain capabilities) q
      = Except.error "Subclasses must implement _generate_answer" := by
  refine ⟨rfl, ?_⟩
  unfold Agent.handle
  rw [h]
  rfl

/-- C3 witness: the bare agent answers-path failure at a concrete
query. -/
theorem c3_witness :
    Agent.handle baseAssessConfidence baseGenerateAnswer
        (mkBaseAgent "bare_001" "Bare" "demo" [demoCap]) demoQuery
      = Except.error "Subclasses must implement _generate_answer" :=
  (c3_missing_generator_fails_at_query_time "bare_001" "Bare" "demo" [demoCap]
    demoQuery (by decide)).2

/-- C4 counterexample: on a query whose content is a complexity
indicator handled by the capability, the spec's four-step ladder yields
LOW but the base `_assess_confidence` returns the capability's
CONFIDENT proficiency — so the ladder is not the base implementation. -/
theorem c4_counterexample :
    baseAssessConfidence technicalQuery technicalCap = ConfidenceLevel.CONFIDENT
    ∧ specConfidencePolicy (ccKnowledgeBase.map Prod.fst) ccComplexityIndicators
        technicalQuery technicalCap = ConfidenceLevel.LOW
    ∧ baseAssessConfidence technicalQuery technicalCap
        ≠ specConfidencePolicy (ccKnowledgeBase.map Prod.fst) ccComplexityIndicators
            technicalQuery technicalCap := by
  refine ⟨rfl, by decide, by decide⟩

/-- C4 amended: the base `_assess_confidence` returns the capability's
proficiency level unchanged; the exact four-step ladder (CERTAIN on a
known-fact key, LOW on a handled topic with a complexity indicator,
MODERATE on a handled topic, UNKNOWN otherwise) is the
`CustomerCareAgent._assess_confidence` refinement, which matches the
spec's ladder step for step. -/
theorem c4_ladder_is_customer_care_refinement (q : Query)
    (capability : AgentCapability) :
    baseAssessConfidence q capability = capability.proficiency_level
    ∧ ccAssessConfidence q capability
        = specConfidencePolicy (ccKnowledgeBase.map Prod.fst) ccComplexityIndicators
            q capability := by
  refine ⟨rfl, ?_⟩
  unfold ccAssessConfidence specConfidencePolicy
  rw [any_map_fst]
  by_cases hkb : ccKnowledgeBase.any (fun kv => pyIn kv.1 (lower q.content)) = true
  · simp [hkb]
  · by_cases hch : capability.can_handle q.content = true
    · by_cases hci : ccComplexityIndicators.any
          (fun indicator => pyIn indicator (lower q.content)) = true
      · simp [hkb, hch, hci]
      · simp [hkb, hch, hci]
    · simp [hkb, hch]

theorem learn_from_outcome_log (a : Agent) (q : Query)
    (predicted_state : EpistemicState) (actual_outcome : Bool)
    (feedback : Option String) :
    (Agent.learn_from_outcome a q predicted_state actual_outcome feedback).learning_log
      = a.learning_log ++
        [{ query := q.content
           predicted_confidence := predicted_state.confidence.value
           actual_outcome := actual_outcome
           feedback := feedback }] := by
  simp only [Agent.learn_from_outcome]
  split <;> split <;> rfl

theorem learn_from_outcome_boundaries (a : Agent) (q : Query)
    (predicted_state : EpistemicState) (actual_outcome : Bool)
    (feedback : Option String) :
    (Agent.learn_from_outcome a q predicted_state actual_outcome feedback).boundaries
      = if !actual_outcome && decide (predicted_state.confidence.value > mkRat 6 10) then
          a.boundaries.map (fun b =>
            if b.domain == q.domain then b.update_boundary (some q.content) none else b)
        else if actual_outcome && decide (predicted_state.confidence.value < mkRat 1 2) then
          a.boundaries.map (fun b =>
            if b.domain == q.domain then b.update_boundary none (some q.content) else b)
        else a.boundaries := by
  simp only [Agent.learn_from_outcome]
  split <;> split <;> simp_all

/-- C6: `learn_from_outcome` appends the learning event unconditionally;
on a false outcome with predicted score strictly above `0.6` it adds the
query content to the known limits of every boundary matching the query
domain; on a true outcome with predicted score strictly below `0.5` it
adds it to the known capabilities of those boundaries; and in every
other case — in particular a score in `[0.5, 0.6]` or no boundary of the
query's domain — it leaves every boundary unchanged. -/
theorem c6_learning_policy (a : Agent) (q : Query)
    (predicted_state : EpistemicState) (actual_outcome : Bool)
    (feedback : Option String) :
    (Agent.learn_from_outcome a q predicted_state actual_outcome feedback).learning_log
      = a.learning_log ++
        [{ query := q.content
           predicted_confidence := predicted_state.confidence.value
           actual_outcome := actual_outcome
           feedback := feedback }]
    ∧ (actual_outcome = false → predicted_state.confidence.value > mkRat 6 10 →
        (Agent.learn_from_outcome a q predicted_state actual_outcome feedback).boundaries
          = a.boundaries.map (fun b =>
              if b.domain == q.domain then b.update_boundary (some q.content) none else b))
    ∧ (actual_outcome = true → predicted_state.confidence.value < mkRat 1 2 →
        (Agent.learn_from_outcome a q predicted_state actual_outcome feedback).boundaries
          = a.boundaries.map (fun b =>
              if b.domain == q.domain then b.update_boundary none (some q.content) else b))
    ∧ (¬(actual_outcome = false ∧ predicted_state.confidence.value > mkRat 6 10) →
       ¬(actual_outcome = true ∧ predicted_state.confidence.value < mkRat 1 2) →
        (Agent.learn_from_outcome a q predicted_state actual_outcome feedback).boundaries
          = a.boundaries)
    ∧ ((∀ b ∈ a.boundaries, (b.domain == q.domain) = false) →
        (Agent.learn_from_outcome a q predicted_state actual_outcome feedback).boundaries
          = a.boundaries) := by
  refine ⟨learn_from_outcome_log a q predicted_state actual_outcome feedback,
    ?_, ?_, ?_, ?_⟩
  · intro ho h6
    rw [learn_from_outcome_boundaries]
    subst ho
    simp [h6]
  · intro ho h5
    rw [learn_from_outcome_boundaries]
    subst ho
    have h6 : ¬ predicted_state.confidence.value > mkRat 6 10 :=
      not_lt.mpr (le_trans (le_of_lt h5) (by norm_num))
    simp [h5, h6]
  · intro hno1 hno2
    rw [learn_from_outcome_boundaries]
    cases actual_outcome with
    | false =>
      have h6 : ¬ predicted_state.confidence.value > mkRat 6 10 :=
        fun h => hno1 ⟨rfl, h⟩
      simp [h6]
    | true =>
      have h5 : ¬ predicted_state.confidence.value < mkRat 1 2 :=
        fun h => hno2 ⟨rfl, h⟩
      simp [h5]
  · intro hnone
    rw [learn_from_outcome_boundaries]
    have hid : ∀ (f : KnowledgeBoundary → KnowledgeBoundary),
        a.boundaries.map (fun b => if b.domain == q.domain then f b else b)
          = a.boundaries := by
      intro f
      have := List.map_congr_left (l := a.boundaries)
        (f := fun b => if b.domain == q.domain then f b else b) (g := id)
        (fun b hb => by simp [hnone b hb])
      rw [this, List.map_id]
    split
    · exact hid _
    · split
      · exact hid _
      · rfl

/-- C6 witness: a wrong outcome predicted with CONFIDENT confidence
(score `0.75 > 0.6`) adds the query content to the known limits of the
billing boundary. -/
theorem c6_witness :
    (Agent.learn_from_outcome ccAgent billLearnQuery confidentState false
        none).boundaries
      = ccAgent.boundaries.map (fun b =>
          if b.domain == billLearnQuery.domain then
            b.update_boundary (some billLearnQuery.content) none
          else b) :=
  (c6_learning_policy ccAgent billLearnQuery confidentState false none).2.1 rfl
    (by decide)

theorem stateInvariant_ite (c : Prop) [inst : Decidable c] (x y : EpistemicState) :
    stateInvariant (if c then x else y)
      ↔ if c then stateInvariant x else stateInvariant y := by
  by_cases h : c <;> simp [h]

theorem voiceAnswerWeather_invariant (query_lower : String) :
    stateInvariant (voiceAnswerWeather query_lower) := by
  unfold voiceAnswerWeather
  simp only [stateInvariant_ite]
  split_ifs <;> simp [stateInvariant, UnknownResponse.to_epistemic_state]

theorem voiceAnswerDefine_invariant (query_lower : String) :
    stateInvariant (voiceAnswerDefine query_lower) := by
  unfold voiceAnswerDefine
  cases hdef : List.find? (fun kv => pyIn kv.1 query_lower) voiceDefinitions with
  | some kv =>
    simp only [hdef, stateInvariant_ite]
    split_ifs
    · simp [stateInvariant]
    · exact voiceAnswerWeather_invariant query_lower
  | none =>
    simp only [hdef, stateInvariant_ite]
    split_ifs <;> exact voiceAnswerWeather_invariant query_lower

/-- C1: evaluation of the mental-health pipeline at the demo crisis
query ("I\x27m thinking about hurting myself", domain "crisis",
required confidence 0.9). The crisis detector lives inside
`_generate_answer`, which `handle` only reaches after the
capability-based deferral branch; the crisis query matches no declared
capability, so the pipeline defers: the result is independent of the
Safety Override detector (first conjunct — the detector is never
consulted), and it carries confidence UNKNOWN (score 0), not CERTAIN,
with no `safety_override` marker and no crisis-protocol source —
contradicting the claimed safety-first ordering and outcome. -/
theorem c1_crisis_check_after_capability_branching
    (check_for_crisis : String → Bool × Option String)
    (check_requires_human : String → Bool) (crisis_response : String) :
    Agent.handle baseAssessConfidence
        (fun a q => Except.ok
          (mhGenerateAnswer check_for_crisis check_requires_human crisis_response a q))
        mhAgent crisisQuery
      = Agent.handle baseAssessConfidence
          (fun a q => Except.ok
            (mhGenerateAnswer (fun _ => (true, some "crisis_detected"))
              (fun _ => false) "" a q))
          mhAgent crisisQuery
    ∧ Except.map
        (fun (p : Response × Agent) =>
          (p.1.confidence, p.1.should_escalate, p.1.safety_override))
        (Agent.handle baseAssessConfidence
          (fun a q => Except.ok
            (mhGenerateAnswer check_for_crisis check_requires_human crisis_response a q))
          mhAgent crisisQuery)
      = Except.ok (ConfidenceLevel.UNKNOWN.value, true, none)
    ∧ ConfidenceLevel.UNKNOWN.value ≠ ConfidenceLevel.CERTAIN.value :=
  ⟨rfl, rfl, by decide⟩

/-- C9 counterexample: the `can_handle` marker state produced by
`assess_capability` for the hours query (present value "can_handle", no
uncertainty reason) carries no source tag, so it violates the
firm-answer half of the invariant. -/
theorem c9_counterexample :
    ((Agent.assess_capability baseAssessConfidence ccAgent hoursQuery).1).value
        = some "can_handle"
    ∧ ((Agent.assess_capability baseAssessConfidence ccAgent hoursQuery).1).uncertainty_reason
        = none
    ∧ ((Agent.assess_capability baseAssessConfidence ccAgent hoursQuery).1).source
        = none
    ∧ ¬ stateInvariant
        ((Agent.assess_capability baseAssessConfidence ccAgent hoursQuery).1) := by
  refine ⟨by decide, by decide, by decide, ?_⟩
  intro hinv
  have hs := hinv.2 ⟨by decide, by decide⟩
  exact absurd hs (by decide)

/-- C9 amended: every epistemic state produced by the answer
generators of the three demo agents and by the deferral and
unknown-domain paths of `assess_capability` satisfies the invariant
(absent value implies an uncertainty reason; a firm answer — present
value, no uncertainty reason — carries a source tag); the only
exception is the internal `can_handle` marker state that
`assess_capability` produces when the agent is confident enough, which
has a present value and no uncertainty reason but no source tag. -/
theorem c9_invariant_except_can_handle_marker (q : Query)
    (check_for_crisis : String → Bool × Option String)
    (check_requires_human : String → Bool) (crisis_response : String) :
    stateInvariant (ccGenerateAnswer ccAgent q)
    ∧ stateInvariant
        (mhGenerateAnswer check_for_crisis check_requires_human crisis_response
          mhAgent q)
    ∧ stateInvariant (voiceGenerateAnswer voiceAgent q)
    ∧ (∀ (assessConf : Query → AgentCapability → ConfidenceLevel) (a : Agent),
        ((Agent.assess_capability assessConf a q).1).value = some "can_handle"
        ∨ stateInvariant ((Agent.assess_capability assessConf a q).1)) := by
  refine ⟨?_, ?_, ?_, ?_⟩
  · unfold ccGenerateAnswer
    cases hkb : List.find? (fun kv => pyIn kv.1 (lower q.content)) ccKnowledgeBase with
    | some kv => simp [hkb, stateInvariant]
    | none =>
      cases hcap : List.find? (fun capability => capability.can_handle q.content)
          ccAgent.capabilities with
      | some capability =>
        simp only [hkb, hcap, stateInvariant_ite]
        split_ifs <;> simp [stateInvariant]
      | none => simp [hkb, hcap, stateInvariant, UnknownResponse.to_epistemic_state]
  · unfold mhGenerateAnswer
    simp only [stateInvariant_ite]
    split_ifs <;> simp [stateInvariant, UnknownResponse.to_epistemic_state]
  · unfold voiceGenerateAnswer
    cases hind : ["today", "latest", "recent", "news", "now", "current"].any
        (fun indicator => pyIn indicator (lower q.content)) with
    | true => simp [hind, stateInvariant]
    | false =>
      cases hcapb : pyIn "capital" (lower q.content) with
      | false =>
        simp only [hind, hcapb, Bool.false_eq_true, if_false]
        exact voiceAnswerDefine_invariant (lower q.content)
      | true =>
        cases hcap : List.find? (fun kv => pyIn kv.1 (lower q.content))
            voiceCapitals with
        | some kv => simp [hind, hcapb, hcap, stateInvariant]
        | none =>
          simp only [hind, hcapb, hcap, Bool.false_eq_true, if_false, if_true]
          exact voiceAnswerDefine_invariant (lower q.content)
  · intro assessConf a
    unfold Agent.assess_capability
    split
    · right
      simp [stateInvariant, UnknownResponse.to_epistemic_state]
    · dsimp only
      split
      · right
        simp [stateInvariant]
      · left
        rfl

end PactDemos
